import Mathlib

/-
Shallow embedding of the Linode billing report generator
(src/scripts/generate_billing_report.py).

Conventions:
- Monetary amounts from the static cost table are modelled in integer
  cents (Nat).  Every entry of the table is a whole number of dollars, so
  every sum and product the script ever computes over this table is an
  integer number of dollars; such values are exactly representable as
  Python floats, sums and products of them are exact, and `:.2f`
  formatting of them is the plain two-decimal rendering modelled by
  `fmtCents`.  The cents model is therefore an exact image of the float
  arithmetic actually performed on these values.
- The JSON dictionaries handled by the script are modelled as structures
  with `Option`-typed fields: `none` models a missing key, and each call
  site applies the same default as the corresponding Python `dict.get`.
- The Python builtin `float` applied to account balance strings is
  modelled by `pyFloat : String -> Option Rat`: `none` models `float`
  raising `ValueError`.  Scientific notation, infinities and surrounding
  whitespace are omitted from the model; none of the claims depend on
  them.
- The external `linode-cli` invocations (subprocess + json.loads) are
  modelled by the inductive `CliResult`, which enumerates the outcomes
  the code distinguishes: completed process (return code plus the shape
  of stdout) / timeout / any other exception.
-/

/-- AccountInfo record (`self.account_info`, a JSON dict from
`linode-cli account view`).  `none` models a missing key. -/
structure AccountInfo where
  email : Option String := none
  balance : Option String := none
  balance_uninvoiced : Option String := none
deriving DecidableEq

/-- ComputeInstance record (one element of `self.linodes`). -/
structure ComputeInstance where
  label : Option String := none
  type : Option String := none
  region : Option String := none
  status : Option String := none
deriving DecidableEq

/-- NodePool record (one element of a cluster pool list). -/
structure NodePool where
  type : Option String := none
  count : Option Nat := none
deriving DecidableEq

/-- ManagedCluster record (one element of `self.lke_clusters`).  The
`pools` field is `none` until `collect_data` attaches a pool list; this
models the key being absent from the dict. -/
structure ManagedCluster where
  label : Option String := none
  k8s_version : Option String := none
  region : Option String := none
  id : Option Nat := none
  pools : Option (List NodePool) := none
deriving DecidableEq

/-- The collected in-memory model: the three data attributes of the
`LinodeBillingReport` object after `collect_data`. -/
structure BillingState where
  account_info : AccountInfo := {}
  linodes : List ComputeInstance := []
  lke_clusters : List ManagedCluster := []
deriving DecidableEq

/-- The static price table `cost_map` of `get_instance_cost`
(lines 106-117), in cents. -/
def cost_map : List (String × Nat) :=
  [("g6-nanode-1", 500),
   ("g6-standard-1", 1200),
   ("g6-standard-2", 2400),
   ("g6-standard-4", 4800),
   ("g6-standard-6", 9600),
   ("g6-standard-8", 19200),
   ("g6-standard-16", 38400),
   ("g6-standard-20", 48000),
   ("g6-standard-24", 57600),
   ("g6-standard-32", 76800)]

/-- `get_instance_cost` (line 118): `cost_map.get(instance_type, 24.00)`,
in cents. -/
def get_instance_cost (instance_type : String) : Nat :=
  (List.lookup instance_type cost_map).getD 2400

/-- Two-decimal rendering of a cents value, matching the `:.2f`
formatting of the exact dollar floats produced from the cost table. -/
def fmtCents (c : Nat) : String :=
  toString (c / 100) ++ "." ++
    (if c % 100 < 10 then "0" ++ toString (c % 100) else toString (c % 100))

/-- Value of a digit list read in base 10. -/
def digitsToNat (l : List Char) : Nat :=
  l.foldl (fun a c => a * 10 + (c.toNat - 48)) 0

/-- Model of the Python builtin `float` on the balance strings: parses an
optional sign, an integer part and an optional fractional part; returns
`none` where `float` raises `ValueError`.  Exponents, infinities and
surrounding whitespace are not modelled (no claim depends on them). -/
def pyFloat (s : String) : Option Rat :=
  let cs := s.data
  let sign : Rat := if cs.head? == some ('-') then -1 else 1
  let body := if cs.head? == some ('-') || cs.head? == some ('+') then cs.tail else cs
  let ip := body.takeWhile (fun c => c.isDigit)
  let rest := body.dropWhile (fun c => c.isDigit)
  match rest with
  | [] => if ip.isEmpty then none else some (sign * (digitsToNat ip : Rat))
  | ch :: frac =>
    if ch == ('.') && frac.all (fun c => c.isDigit) && (!ip.isEmpty || !frac.isEmpty) then
      some (sign * ((digitsToNat ip : Rat) + (digitsToNat frac : Rat) / ((10 : Rat) ^ frac.length)))
    else none

/-- The amount-currently-due computation
`float(account_info.get('balance', 0)) + float(account_info.get('balance_uninvoiced', 0))`
(lines 137-139 and line 333).  `none` models the `ValueError` raised by
`float` on an unparsable field, which aborts report generation. -/
def total_due (a : AccountInfo) : Option Rat :=
  match pyFloat (a.balance.getD ("0")), pyFloat (a.balance_uninvoiced.getD ("0")) with
  | some b, some u => some (b + u)
  | _, _ => none

/-- Shape of the standard output of a completed `linode-cli` process, as
the code distinguishes it: blank (falsy after `strip()`), text that
`json.loads` rejects, a JSON array, or valid JSON that is not an array. -/
inductive StdoutContent (α : Type) where
  | blank
  | malformed
  | jlist (xs : List α)
  | jother
deriving DecidableEq

/-- Outcome of one `subprocess.run` invocation of `linode-cli`:
a completed process with its return code and stdout shape, a
`subprocess.TimeoutExpired`, or any other exception. -/
inductive CliResult (α : Type) where
  | ok (returncode : Int) (stdout : StdoutContent α)
  | timeout
  | execError
deriving DecidableEq

/-- `run_linode_cli` (lines 67-78).  First component: the returned value
(`none` models Python `None`).  Second component: whether the warning
line was printed (only the exception handler prints it). -/
def run_linode_cli {α : Type} (r : CliResult α) : Option (List α) × Bool :=
  match r with
  | .ok rc out =>
    if rc = 0 then
      match out with
      | .blank => (none, false)
      | .malformed => (none, true)
      | .jlist xs => (if xs.isEmpty then none else some xs, false)
      | .jother => (none, false)
    else (none, false)
  | .timeout => (none, true)
  | .execError => (none, true)

/-- Whether a CLI outcome is a failure in the sense of the spec:
non-zero exit, timeout, other exception, blank output, malformed JSON,
an empty JSON array, or JSON that is not an array. -/
def cli_failed {α : Type} (r : CliResult α) : Bool :=
  match r with
  | .ok rc out =>
    (rc != 0) ||
      (match out with
       | .jlist xs => xs.isEmpty
       | _ => true)
  | _ => true

/-- The per-cluster pool attachment of `collect_data` (lines 97-102):
`if cluster_id: pools = run(...); cluster['pools'] = pools or []`.
A cluster with no id, or id 0 (falsy), is left untouched. -/
def collect_pools (poolResp : Nat → CliResult NodePool) (c : ManagedCluster) : ManagedCluster :=
  match c.id with
  | some i =>
    if i = 0 then c
    else { c with pools := some (((run_linode_cli (poolResp i)).1).getD []) }
  | none => c

/-- `collect_data` (lines 80-102), as a function of the four category
responses of the external tool (the pool response is keyed by cluster
id, as in the source fan-out). -/
def collect_data (acct : CliResult AccountInfo) (lin : CliResult ComputeInstance)
    (lke : CliResult ManagedCluster) (poolResp : Nat → CliResult NodePool) : BillingState :=
  { account_info :=
      match (run_linode_cli acct).1 with
      | some (a :: _) => a
      | _ => {}
  , linodes := ((run_linode_cli lin).1).getD []
  , lke_clusters := (((run_linode_cli lke).1).getD []).map (collect_pools poolResp) }

/-- Total estimated monthly compute cost (line 362 and lines 231-233):
`sum(get_instance_cost(l.get('type', '')) for l in linodes)`, in cents. -/
def total_compute_cost (linodes : List ComputeInstance) : Nat :=
  (linodes.map (fun l => get_instance_cost (l.type.getD ("")))).sum

/-- Cost contribution of one pool (lines 216-218 and 238-240):
`get_instance_cost(pool.get('type', 'g6-standard-2')) * pool.get('count', 0)`,
in cents. -/
def pool_cost (p : NodePool) : Nat :=
  get_instance_cost (p.type.getD ("g6-standard-2")) * p.count.getD 0

/-- The diagram text lines drawn for one pool (lines 221-225): emitted
only when the pool count is positive. -/
def pool_lines (p : NodePool) : List String :=
  if 0 < p.count.getD 0 then
    [toString (p.count.getD 0) ++ "x " ++ p.type.getD ("g6-standard-2") ++ " workers",
     "$" ++ fmtCents (pool_cost p) ++ "/mo"]
  else []

/-- Total estimated monthly worker cost over all clusters and pools
(lines 212-219 and 236-240), in cents. -/
def total_worker_cost (clusters : List ManagedCluster) : Nat :=
  (clusters.map (fun c => ((c.pools.getD []).map pool_cost).sum)).sum

/-- Grand total of the diagram (`total_monthly`, lines 228-240):
compute cost plus worker cost, in cents. -/
def grand_total (st : BillingState) : Nat :=
  total_compute_cost st.linodes + total_worker_cost st.lke_clusters

/-- Order-preserving count increment used to model the Python dict
`type_counts` (insertion order preserved). -/
def bump_type (acc : List (String × Nat)) (t : String) : List (String × Nat) :=
  if acc.any (fun q => q.1 == t) then
    acc.map (fun q => if q.1 == t then (q.1, q.2 + 1) else q)
  else acc ++ [(t, 1)]

/-- The `type_counts` grouping (lines 186-189 and 268-271):
instance type code (default `Unknown`) to number of instances. -/
def type_counts (linodes : List ComputeInstance) : List (String × Nat) :=
  linodes.foldl (fun acc l => bump_type acc (l.type.getD ("Unknown"))) []

/-- The diagram text lines of the compute breakdown (lines 191-202). -/
def compute_lines (linodes : List ComputeInstance) : List String :=
  (type_counts linodes).flatMap (fun q =>
    if 1 < q.2 then
      [toString q.2 ++ "x " ++ q.1, "$" ++ fmtCents (get_instance_cost q.1 * q.2) ++ "/mo"]
    else
      [q.1, "$" ++ fmtCents (get_instance_cost q.1) ++ "/mo"])

/-- The diagram text lines of the LKE breakdown (lines 209-225):
a control-plane line followed by the per-pool lines of every cluster. -/
def lke_detail (clusters : List ManagedCluster) : List String :=
  "Control Plane: Free" :: clusters.flatMap (fun c => (c.pools.getD []).flatMap pool_lines)

/-- `used_categories` (lines 152-160): one (name, color) entry per
category with at least one collected record. -/
def used_categories (st : BillingState) : List (String × String) :=
  (if st.linodes.isEmpty then [] else [("Compute Resources", "#FFE0E0")])
  ++ (if st.lke_clusters.isEmpty then [] else [("Kubernetes (LKE)", "#E0F0FF")])

/-- Abstraction of the textual content drawn by
`create_cost_structure_diagram`: the labeled category boxes, the two
per-category breakdowns, the highlighted total panel (with its cents
value) and the no-resources notice. -/
structure Diagram where
  usedCategories : List String
  computeLines : List String
  lkeLines : List String
  totalPanel : Option Nat
  noResourcesNotice : Bool
deriving DecidableEq

/-- `create_cost_structure_diagram` (lines 120-260), restricted to its
textual content.  The compute breakdown is guarded by
`if self.linodes and used_categories` (line 181), the LKE breakdown by
`if self.lke_clusters and len(used_categories) > 1` (line 205) - the
latter holds exactly when both lists are non-empty.  The total panel is
drawn inside `if self.linodes or self.lke_clusters` and only when
`total_monthly > 0` (lines 228, 242); the notice is the else branch
(line 252). -/
def create_cost_structure_diagram (st : BillingState) : Diagram :=
  { usedCategories := (used_categories st).map Prod.fst
  , computeLines := if st.linodes.isEmpty then [] else compute_lines st.linodes
  , lkeLines :=
      if st.lke_clusters.isEmpty || st.linodes.isEmpty then []
      else lke_detail st.lke_clusters
  , totalPanel :=
      if st.linodes.isEmpty && st.lke_clusters.isEmpty then none
      else if 0 < grand_total st then some (grand_total st) else none
  , noResourcesNotice := st.linodes.isEmpty && st.lke_clusters.isEmpty }

/-- `create_resource_chart` (lines 262-290): returns `None` (no chart
file) when there are no instances, otherwise the pie data. -/
def create_resource_chart (st : BillingState) : Option (List (String × Nat)) :=
  if st.linodes.isEmpty then none else some (type_counts st.linodes)

/-- The account table rows that carry strings (lines 328-332); the
Total Due row value is carried separately by `total_due` since its cell
is computed numerically. -/
def account_rows (st : BillingState) (now : String) : List (List String) :=
  [["Account", st.account_info.email.getD ("N/A")],
   ["Report Date", now],
   ["Balance", "$" ++ st.account_info.balance.getD ("0")],
   ["Uninvoiced Usage", "$" ++ st.account_info.balance_uninvoiced.getD ("0")]]

/-- The executive summary table `summary_data` (lines 354-363): the
Est. Monthly Compute Cost row is appended only when at least one
instance exists. -/
def summary_data (st : BillingState) : List (List String) :=
  [["Metric", "Value"],
   ["Active Compute Instances", toString st.linodes.length],
   ["Active Kubernetes Clusters", toString st.lke_clusters.length],
   ["Current Month Usage", "$" ++ st.account_info.balance_uninvoiced.getD ("0")]]
  ++ (if st.linodes.isEmpty then []
      else [["Est. Monthly Compute Cost", "$" ++ fmtCents (total_compute_cost st.linodes)]])

/-- The compute resource table `resource_data` (lines 390-399). -/
def resource_data (st : BillingState) : List (List String) :=
  ["Instance", "Type", "Region", "Status", "Est. Monthly Cost"] ::
  st.linodes.map (fun l =>
    [l.label.getD ("Unknown"), l.type.getD ("Unknown"), l.region.getD ("Unknown"),
     l.status.getD ("Unknown"), "$" ++ fmtCents (get_instance_cost (l.type.getD ("")))])

/-- The node-pool column of one cluster row (lines 424-427). -/
def pools_str (c : ManagedCluster) : String :=
  let infos := (c.pools.getD []).map
    (fun p => toString (p.count.getD 0) ++ "x " ++ p.type.getD ("unknown"))
  if infos.isEmpty then "No pools" else String.intercalate (", ") infos

/-- The cluster table `lke_data` (lines 422-434). -/
def lke_data (st : BillingState) : List (List String) :=
  ["Cluster", "Version", "Region", "Node Pools"] ::
  st.lke_clusters.map (fun c =>
    [c.label.getD ("Unknown"), c.k8s_version.getD ("Unknown"),
     c.region.getD ("Unknown"), pools_str c])

/-- The section heading paragraphs appended by `generate_pdf`, in
order.  The title and the four fixed headings are unconditional; the
cost-structure heading is guarded by the diagram file existing, which
always holds since `create_cost_structure_diagram` always saves one;
the Resource Distribution heading (lines 452-455) appears only when
`create_resource_chart` produced a file. -/
def report_headers (st : BillingState) : List String :=
  ["Linode Infrastructure Billing Report", "Executive Summary", "Cost Structure Analysis",
   "Active Compute Resources", "Kubernetes Infrastructure"]
  ++ (match create_resource_chart st with
      | some _ => ["Resource Distribution"]
      | none => [])
  ++ ["Cost Optimization Recommendations"]

/-- The full textual content rendered from a collected model: the
account rows (the only place the wall-clock time `now` enters), the
total-due value, the three tables and the diagram. -/
def render_report (st : BillingState) (now : String) :
    List (List String) × Option Rat × List (List String) × List (List String)
      × List (List String) × Diagram :=
  (account_rows st now, total_due st.account_info, summary_data st,
   resource_data st, lke_data st, create_cost_structure_diagram st)

/-- Sample instance of the known type used by concrete evaluations. -/
def sample_instance : ComputeInstance := { type := some ("g6-standard-2") }

/-- Sample state with exactly one instance of type g6-standard-2. -/
def sample_state_b : BillingState := { linodes := [sample_instance] }

/-- Sample pool of type g6-standard-4 with count 3. -/
def sample_pool : NodePool := { type := some ("g6-standard-4"), count := some 3 }

/-- Sample cluster holding exactly `sample_pool`. -/
def sample_cluster : ManagedCluster := { id := some 1, pools := some [sample_pool] }

/-- Sample state with one instance and one cluster with one pool. -/
def sample_state_c : BillingState :=
  { linodes := [{ type := some ("g6-nanode-1") }], lke_clusters := [sample_cluster] }

/-- Sample state with one cluster with one pool but zero instances. -/
def sample_state_lke_only : BillingState := { lke_clusters := [sample_cluster] }

/-- Pool response in which every lookup times out. -/
def pool_resp_none : Nat → CliResult NodePool := fun _ => CliResult.timeout

/-- Collected state for a clusters response containing one cluster
without an id field. -/
def sample_collect_no_id : BillingState :=
  collect_data CliResult.timeout CliResult.timeout
    (CliResult.ok 0 (StdoutContent.jlist [{}])) pool_resp_none

/-- Collected state for a clusters response containing one cluster with
id 5, whose pool lookup times out. -/
def sample_collect_id5 : BillingState :=
  collect_data CliResult.timeout CliResult.timeout
    (CliResult.ok 0 (StdoutContent.jlist [{ id := some 5 }])) pool_resp_none

/-- Claim C1: the cost lookup is a total function over all type-code
strings: a code that is a key of the table resolves to its table price,
and any other string, the empty string included, resolves to the
designated default 24.00 (2400 cents); being a Lean function it never
fails. -/
theorem get_instance_cost_total_fun (code : String) :
  (∀ v : Nat, List.lookup code cost_map = some v → get_instance_cost code = v)
  ∧ (List.lookup code cost_map = none → get_instance_cost code = 2400) := by
  constructor
  · intro v h
    simp [get_instance_cost, h]
  · intro h
    simp [get_instance_cost, h]

/-- Concrete evaluation of claim C1 at a known key and at the empty
string. -/
theorem get_instance_cost_total_fun_eval :
  List.lookup ("g6-standard-2") cost_map = some 2400
  ∧ get_instance_cost ("g6-standard-2") = 2400
  ∧ List.lookup ("") cost_map = none
  ∧ get_instance_cost ("") = 2400 :=
  ⟨rfl, (get_instance_cost_total_fun ("g6-standard-2")).1 2400 rfl, rfl,
   (get_instance_cost_total_fun ("")).2 rfl⟩

/-- Claim C2: the estimated monthly compute cost is the sum of the cost
of each instance type over the list, the empty list summing to zero;
for a single instance of type g6-standard-2 the total is 24.00 and the
executive summary contains the row Est. Monthly Compute Cost / $24.00. -/
theorem total_compute_cost_spec (L : List ComputeInstance) (st : BillingState)
    (i : ComputeInstance) :
  total_compute_cost L = (L.map (fun j => get_instance_cost (j.type.getD ("")))).sum
  ∧ total_compute_cost [] = 0
  ∧ (st.linodes = [i] → i.type = some ("g6-standard-2") →
      total_compute_cost st.linodes = 2400
      ∧ ["Est. Monthly Compute Cost", "$24.00"] ∈ summary_data st) := by
  refine ⟨rfl, rfl, ?_⟩
  intro h1 h2
  have htot : total_compute_cost st.linodes = 2400 := by
    rw [h1]
    show get_instance_cost (i.type.getD ("")) + total_compute_cost [] = 2400
    rw [h2]
    rfl
  refine ⟨htot, ?_⟩
  have hrow : (["Est. Monthly Compute Cost", "$24.00"] : List String)
      = ["Est. Monthly Compute Cost", "$" ++ fmtCents (total_compute_cost st.linodes)] := by
    rw [htot]
    rfl
  rw [hrow]
  have hne : st.linodes.isEmpty = false := by rw [h1]; rfl
  simp [summary_data, hne]

/-- Concrete evaluation of claim C2 on a state holding one instance of
type g6-standard-2. -/
theorem total_compute_cost_spec_eval :
  total_compute_cost sample_state_b.linodes = 2400
  ∧ ["Est. Monthly Compute Cost", "$24.00"] ∈ summary_data sample_state_b :=
  (total_compute_cost_spec [] sample_state_b sample_instance).2.2 rfl rfl

/-- Claim C3 counterexample: with one cluster holding one pool of type
g6-standard-4 and count 3 but zero compute instances, the total worker
cost is 144.00 yet the diagram contains neither the worker-count line
nor the cost line, because the source draws the LKE breakdown only when
more than one category box exists (line 205). -/
theorem lke_detail_omitted_without_instances :
  total_worker_cost sample_state_lke_only.lke_clusters = 14400
  ∧ (create_cost_structure_diagram sample_state_lke_only).lkeLines = []
  ∧ (create_cost_structure_diagram sample_state_lke_only).computeLines = []
  ∧ (create_cost_structure_diagram sample_state_lke_only).usedCategories
      = ["Kubernetes (LKE)"] :=
  ⟨rfl, rfl, rfl, rfl⟩

/-- Claim C3 (amended): the total worker cost is the sum over all pools
of cost(type) times count; a pool with count 0 contributes 0 and emits
no diagram line; and for one cluster with one pool of type g6-standard-4
and count 3 the total is 144.00 and - provided at least one compute
instance is also present, since the source draws cluster details only
when both category boxes exist - the diagram shows the lines
3x g6-standard-4 workers and $144.00/mo. -/
theorem total_worker_cost_spec (clusters : List ManagedCluster) (p : NodePool)
    (st : BillingState) (c : ManagedCluster) (q : NodePool) :
  total_worker_cost clusters
      = (clusters.map (fun cc => ((cc.pools.getD []).map pool_cost).sum)).sum
  ∧ (p.count.getD 0 = 0 → pool_cost p = 0 ∧ pool_lines p = [])
  ∧ (st.linodes ≠ [] → st.lke_clusters = [c] → c.pools = some [q] →
      q.type = some ("g6-standard-4") → q.count = some 3 →
      total_worker_cost st.lke_clusters = 14400
      ∧ "3x g6-standard-4 workers" ∈ (create_cost_structure_diagram st).lkeLines
      ∧ "$144.00/mo" ∈ (create_cost_structure_diagram st).lkeLines) := by
  refine ⟨rfl, ?_, ?_⟩
  · intro h
    constructor
    · simp [pool_cost, h]
    · simp [pool_lines, h]
  · intro hlin hcl hp ht hc
    have hclempty : st.lke_clusters.isEmpty = false := by rw [hcl]; rfl
    have hlinempty : st.linodes.isEmpty = false := by
      cases hl : st.linodes with
      | nil => exact absurd hl hlin
      | cons a as => rfl
    have hq : pool_lines q = ["3x g6-standard-4 workers", "$144.00/mo"] := by
      unfold pool_lines pool_cost
      rw [ht, hc]
      rfl
    have hlke : (create_cost_structure_diagram st).lkeLines
        = ["Control Plane: Free", "3x g6-standard-4 workers", "$144.00/mo"] := by
      simp [create_cost_structure_diagram, hclempty, hlinempty, lke_detail, hcl, hp, hq]
    have htot : total_worker_cost st.lke_clusters = 14400 := by
      rw [hcl]
      show ((c.pools.getD []).map pool_cost).sum + 0 = 14400
      rw [hp]
      show pool_cost q + 0 + 0 = 14400
      unfold pool_cost
      rw [ht, hc]
      rfl
    refine ⟨htot, ?_, ?_⟩ <;> rw [hlke] <;> simp

/-- Concrete evaluation of claim C3 on a state with one nanode instance
and one cluster holding one pool of type g6-standard-4, count 3. -/
theorem total_worker_cost_spec_eval :
  total_worker_cost sample_state_c.lke_clusters = 14400
  ∧ "3x g6-standard-4 workers" ∈ (create_cost_structure_diagram sample_state_c).lkeLines := by
  have h := (total_worker_cost_spec [] sample_pool sample_state_c sample_cluster
    sample_pool).2.2 (by simp [sample_state_c]) rfl rfl rfl rfl
  exact ⟨h.1, h.2.1⟩

/-- Claim C4 (code bug): on an account whose balance field is not
parsable as a decimal number, the amount-currently-due computation does
not coerce the value to zero: the float conversion fails (modelled by
none), which in the source raises ValueError and aborts the report via
the top-level handler instead of continuing. -/
theorem total_due_unparsable_fails :
  pyFloat ("abc") = none
  ∧ total_due { balance := some ("abc"), balance_uninvoiced := some ("0") } = none :=
  ⟨rfl, rfl⟩

/-- Claim C5 counterexample: a non-zero exit of the external tool is a
failure that yields the empty result but prints no warning, contrary to
the claim that every failure is logged. -/
theorem run_linode_cli_nonzero_exit_silent :
  cli_failed (CliResult.ok 1 StdoutContent.blank : CliResult ComputeInstance) = true
  ∧ run_linode_cli (CliResult.ok 1 StdoutContent.blank : CliResult ComputeInstance)
      = (none, false)
  ∧ ¬ (run_linode_cli (CliResult.ok 1 StdoutContent.blank : CliResult ComputeInstance)).2
      = true :=
  ⟨rfl, rfl, by decide⟩

/-- Claim C5 (amended): every failing CLI outcome yields the empty
result and collection always continues - each category of the collected
state is a function of its own response alone; the warning line is
printed exactly on timeout, on another exception, or on malformed JSON
after a zero exit, while a non-zero exit, blank output, an empty JSON
array and non-array JSON are silent. -/
theorem run_linode_cli_failure_spec {α : Type} (r : CliResult α)
    (a : CliResult AccountInfo) (l : CliResult ComputeInstance)
    (k : CliResult ManagedCluster) (p : Nat → CliResult NodePool) :
  (cli_failed r = true → (run_linode_cli r).1 = none)
  ∧ ((run_linode_cli r).2 = true ↔
      (r = CliResult.timeout ∨ r = CliResult.execError
        ∨ r = CliResult.ok 0 StdoutContent.malformed))
  ∧ (collect_data a l k p).linodes = ((run_linode_cli l).1).getD []
  ∧ (collect_data a l k p).lke_clusters
      = (((run_linode_cli k).1).getD []).map (collect_pools p) := by
  refine ⟨?_, ?_, rfl, rfl⟩
  · intro h
    cases r with
    | ok rc out =>
      by_cases hrc : rc = 0
      · subst hrc
        cases out with
        | jlist xs =>
          simp [cli_failed] at h
          simp [run_linode_cli, h]
        | blank => rfl
        | malformed => rfl
        | jother => rfl
      · simp [run_linode_cli, hrc]
    | timeout => rfl
    | execError => rfl
  · cases r with
    | ok rc out =>
      by_cases hrc : rc = 0
      · subst hrc
        cases out <;> simp [run_linode_cli]
      · simp [run_linode_cli, hrc]
    | timeout => simp [run_linode_cli]
    | execError => simp [run_linode_cli]

/-- Concrete evaluation of claim C5 at a timeout outcome. -/
theorem run_linode_cli_failure_spec_eval :
  cli_failed (CliResult.timeout : CliResult NodePool) = true
  ∧ (run_linode_cli (CliResult.timeout : CliResult NodePool)).1 = none
  ∧ (run_linode_cli (CliResult.timeout : CliResult NodePool)).2 = true := by
  refine ⟨rfl, ?_, ?_⟩
  · exact (run_linode_cli_failure_spec (CliResult.timeout : CliResult NodePool)
      CliResult.timeout CliResult.timeout CliResult.timeout pool_resp_none).1 rfl
  · exact (run_linode_cli_failure_spec (CliResult.timeout : CliResult NodePool)
      CliResult.timeout CliResult.timeout CliResult.timeout pool_resp_none).2.1.mpr
      (Or.inl rfl)

/-- Claim C6: the diagram has exactly one labeled box per category with
at least one collected record and none for an empty category; the
no-resources notice appears exactly when both categories are empty, and
then no category box and no total panel is drawn; the total panel is
present exactly when the grand total is positive. -/
theorem diagram_category_spec (st : BillingState) :
  ((create_cost_structure_diagram st).usedCategories.count ("Compute Resources")
      = if st.linodes.isEmpty then 0 else 1)
  ∧ ((create_cost_structure_diagram st).usedCategories.count ("Kubernetes (LKE)")
      = if st.lke_clusters.isEmpty then 0 else 1)
  ∧ ((create_cost_structure_diagram st).noResourcesNotice
      = (st.linodes.isEmpty && st.lke_clusters.isEmpty))
  ∧ ((create_cost_structure_diagram st).noResourcesNotice = true →
      (create_cost_structure_diagram st).totalPanel = none
      ∧ (create_cost_structure_diagram st).usedCategories = [])
  ∧ ((create_cost_structure_diagram st).totalPanel.isSome = true ↔ 0 < grand_total st) := by
  have hiff : ∀ g : Nat, (if 0 < g then some g else none).isSome = true ↔ 0 < g := by
    intro g
    by_cases hg : 0 < g <;> simp [hg]
  obtain ⟨ai, lins, clus⟩ := st
  cases lins with
  | nil =>
    cases clus with
    | nil =>
      refine ⟨rfl, rfl, rfl, fun _ => ⟨rfl, rfl⟩, ?_⟩
      simp [create_cost_structure_diagram, grand_total, total_compute_cost, total_worker_cost]
    | cons c cs =>
      refine ⟨rfl, rfl, rfl, ?_, ?_⟩
      · intro h
        exact Bool.noConfusion h
      · exact hiff (grand_total ⟨ai, [], c :: cs⟩)
  | cons a as =>
    cases clus with
    | nil =>
      refine ⟨rfl, rfl, rfl, ?_, ?_⟩
      · intro h
        exact Bool.noConfusion h
      · exact hiff (grand_total ⟨ai, a :: as, []⟩)
    | cons c cs =>
      refine ⟨rfl, rfl, rfl, ?_, ?_⟩
      · intro h
        exact Bool.noConfusion h
      · exact hiff (grand_total ⟨ai, a :: as, c :: cs⟩)

/-- Concrete evaluation of claim C6 on the empty collected model. -/
theorem diagram_category_spec_eval :
  (create_cost_structure_diagram {}).noResourcesNotice = true
  ∧ (create_cost_structure_diagram {}).totalPanel = none
  ∧ (create_cost_structure_diagram {}).usedCategories = [] := by
  have h := (diagram_category_spec {}).2.2.2.1 rfl
  exact ⟨rfl, h.1, h.2⟩

/-- Claim C7 counterexample: with zero compute instances the assembled
document omits the Resource Distribution heading entirely (lines
452-455), so not every section header appears unconditionally. -/
theorem resource_distribution_header_omitted :
  ¬ ("Resource Distribution" ∈ report_headers {}) := by decide

/-- Claim C7 (amended): the title and the Executive Summary, Cost
Structure Analysis, Active Compute Resources, Kubernetes Infrastructure
and Cost Optimization Recommendations headings appear in every
assembled document; the Resource Distribution heading appears exactly
when at least one compute instance exists (there is also no separate
account-summary heading: the account table follows the title
directly). -/
theorem report_headers_spec (st : BillingState) :
  "Linode Infrastructure Billing Report" ∈ report_headers st
  ∧ "Executive Summary" ∈ report_headers st
  ∧ "Cost Structure Analysis" ∈ report_headers st
  ∧ "Active Compute Resources" ∈ report_headers st
  ∧ "Kubernetes Infrastructure" ∈ report_headers st
  ∧ "Cost Optimization Recommendations" ∈ report_headers st
  ∧ ("Resource Distribution" ∈ report_headers st ↔ st.linodes ≠ []) := by
  obtain ⟨ai, lins, clus⟩ := st
  cases lins with
  | nil =>
    refine ⟨?_, ?_, ?_, ?_, ?_, ?_, ?_⟩ <;>
      simp [report_headers, create_resource_chart]
  | cons a as =>
    refine ⟨?_, ?_, ?_, ?_, ?_, ?_, ?_⟩ <;>
      simp [report_headers, create_resource_chart]

/-- Concrete evaluation of claim C7 on a state with one instance. -/
theorem report_headers_spec_eval :
  "Resource Distribution" ∈ report_headers sample_state_b :=
  (report_headers_spec sample_state_b).2.2.2.2.2.2.mpr (by simp [sample_state_b])

/-- Claim C8 counterexample: a collected cluster record that carries no
id is left untouched by the pool fan-out (line 100 guards on a truthy
id), so its pools field stays missing after collection. -/
theorem collect_data_pools_missing_without_id :
  sample_collect_no_id.lke_clusters.map ManagedCluster.pools = [none]
  ∧ ¬ (∀ c ∈ sample_collect_no_id.lke_clusters, (ManagedCluster.pools c).isSome = true) := by
  refine ⟨rfl, ?_⟩
  intro h
  have hc := h {} (by decide)
  exact Bool.noConfusion hc

/-- Claim C8 (amended): after collection, every cluster that carries a
non-zero id has a pool list - the result of the per-cluster pool
lookup, or the empty list when that lookup failed; a cluster without an
id (or with the falsy id 0) is left untouched, so its pools field can
remain missing. -/
theorem collect_data_pools_spec (a : CliResult AccountInfo) (l : CliResult ComputeInstance)
    (k : CliResult ManagedCluster) (p : Nat → CliResult NodePool)
    (c : ManagedCluster) (i : Nat) :
  c ∈ (collect_data a l k p).lke_clusters → c.id = some i → i ≠ 0 →
  c.pools = some (((run_linode_cli (p i)).1).getD []) := by
  intro hc hid hi
  obtain ⟨c0, hc0, hmap⟩ := List.mem_map.mp hc
  subst hmap
  cases h0 : c0.id with
  | none =>
    have heq : collect_pools p c0 = c0 := by unfold collect_pools; rw [h0]
    rw [heq, h0] at hid
    exact Option.noConfusion hid
  | some j =>
    by_cases hj : j = 0
    · have heq : collect_pools p c0 = c0 := by
        unfold collect_pools
        rw [h0]
        simp [hj]
      rw [heq, h0] at hid
      have hji : j = i := Option.some.inj hid
      exact absurd (hji ▸ hj) hi
    · have heq : collect_pools p c0
          = { c0 with pools := some (((run_linode_cli (p j)).1).getD []) } := by
        unfold collect_pools
        rw [h0]
        simp [hj]
      rw [heq] at hid ⊢
      have hid2 : c0.id = some i := hid
      rw [h0] at hid2
      have hji : j = i := Option.some.inj hid2
      subst hji
      rfl

/-- Concrete evaluation of claim C8: one collected cluster with id 5
whose pool lookup timed out ends with the empty pool list. -/
theorem collect_data_pools_spec_eval :
  sample_collect_id5.lke_clusters.map ManagedCluster.pools = [some ([])]
  ∧ ({ id := some 5, pools := some ([]) } : ManagedCluster).pools
      = some (((run_linode_cli (pool_resp_none 5)).1).getD []) := by
  refine ⟨rfl, ?_⟩
  exact collect_data_pools_spec CliResult.timeout CliResult.timeout
    (CliResult.ok 0 (StdoutContent.jlist [{ id := some 5 }])) pool_resp_none
    { id := some 5, pools := some ([]) } 5 (by decide) rfl (by decide)

/-- Claim C9: the rendering stage is a pure function of the collected
model: for any two wall-clock times, every rendered cell except the
Report Date cell - the total-due value, all table cells and the whole
diagram - coincides between the two renders. -/
theorem render_report_deterministic (st : BillingState) (t1 t2 : String) :
  ((render_report st t1).1).eraseIdx 1 = ((render_report st t2).1).eraseIdx 1
  ∧ (render_report st t1).2 = (render_report st t2).2 :=
  ⟨rfl, rfl⟩

/-- Claim C10: every type code outside the table resolves to the price
of the known key g6-standard-2, so an unknown-type instance contributes
the same amount as a g6-standard-2 instance to the compute total. -/
theorem unknown_type_costs_like_standard_2 (code : String)
    (h : List.lookup code cost_map = none) :
  get_instance_cost code = get_instance_cost ("g6-standard-2")
  ∧ ∀ (i : ComputeInstance) (L : List ComputeInstance), i.type = some code →
      total_compute_cost (i :: L)
        = get_instance_cost ("g6-standard-2") + total_compute_cost L := by
  have h1 : get_instance_cost code = get_instance_cost ("g6-standard-2") := by
    show (List.lookup code cost_map).getD 2400
        = (List.lookup ("g6-standard-2") cost_map).getD 2400
    rw [h]
    rfl
  refine ⟨h1, ?_⟩
  intro i L hi
  show get_instance_cost (i.type.getD ("")) + total_compute_cost L = _
  rw [hi]
  show get_instance_cost code + total_compute_cost L = _
  rw [h1]

/-- Concrete evaluation of claim C10 at the unknown code custom-xyz. -/
theorem unknown_type_costs_like_standard_2_eval :
  List.lookup ("custom-xyz") cost_map = none
  ∧ get_instance_cost ("custom-xyz") = get_instance_cost ("g6-standard-2")
  ∧ total_compute_cost [{ type := some ("custom-xyz") }] = 2400 := by
  have h := unknown_type_costs_like_standard_2 ("custom-xyz") rfl
  refine ⟨rfl, h.1, ?_⟩
  have h2 := h.2 { type := some ("custom-xyz") } [] rfl
  rw [h2]
  rfl
